/-
Verification development for the `universal-governance` repository.

The repository contains two registrar implementations:
  * `Mainscript.py` — `PublicRegistrar` with an ECDSA-signed, hash-chained
    ledger (`_register_training_proof`, `_compute_reg_hash`,
    `verify_registration`);
  * `src/mainscript.py` + `src/governance_crypto.py` — the
    OpenPGP-based identity registrar (`verify_identity`, caching,
    `add_openpgp_signature`, `verify_openpgp_signature`,
    `require_verified_identity`).

This file gives a shallow embedding of both: JSON values are an inductive
type, Python dicts are association lists, `json.dumps(..., sort_keys=True)`
is modelled by a deterministic serializer with sorted keys, Python
exceptions are an `Except PyErr` result, external cryptographic backends
(the `ecdsa` library, the `gpg` subprocess) are parameters, and mutation of
registrar objects is explicit state passing.
-/
import Mathlib

set_option autoImplicit false

namespace Gov

/-! ## Python-level modelling: exceptions and JSON values -/

/-- Python exceptions that the modelled code can raise. -/
inductive PyErr where
  | attributeError
  | keyError
  | valueError
  | typeError
  | badSignature
  | assertionError
  | fileNotFoundError
  | runtimeError
  | permissionError
  deriving Repr, DecidableEq

/-- JSON values, as produced by Python's `json` module on the data the
registrars handle.  Objects keep insertion order, as Python dicts do. -/
inductive Json where
  | null
  | bool (b : Bool)
  | int (n : Int)
  | str (s : String)
  | arr (elems : List Json)
  | obj (fields : List (String × Json))
  deriving Inhabited

/-- A Python dict with string keys, in insertion order. -/
abbrev Dict := List (String × Json)

/-! ### `json.dumps` with `sort_keys=True`

Python's `json.dumps(obj, sort_keys=True)` serializes with keys sorted
lexicographically by code point.  `Mainscript.py` uses the default
separators `", "`/`": "`; `governance_crypto.py` uses the compact
separators `","`/`":"`.  The sources only ever serialize ASCII data, so the
escaping model below (backslash and double quote) matches Python's output
on every value appearing in this development. -/

/-- Escape one character the way `json.dumps` does for the ASCII subset. -/
def escChar (c : Char) : String :=
  if c = '\\' then "\\\\"
  else if c = '"' then "\\\""
  else String.singleton c

/-- Serialize a JSON string literal. -/
def dumpStr (s : String) : String :=
  "\"" ++ String.join (s.toList.map escChar) ++ "\""

/-- Join a list of already-serialized items with a separator. -/
def joinSep (sep : String) : List String → String
  | [] => ""
  | [x] => x
  | x :: xs => x ++ sep ++ joinSep sep xs

/-- Lexicographic order on character lists by code point — the order
Python uses to compare `str` values. -/
def leChars : List Char → List Char → Bool
  | [], _ => true
  | _ :: _, [] => false
  | a :: as, b :: bs => if a = b then leChars as bs else decide (a < b)

/-- `a <= b` on Python strings (code-point lexicographic). -/
def keyLe (a b : String) : Bool := leChars a.toList b.toList

/-- Insert a pair into a key-sorted list, keeping it sorted (stable). -/
def insertPair (p : String × String) :
    List (String × String) → List (String × String)
  | [] => [p]
  | q :: qs => if keyLe p.1 q.1 then p :: q :: qs else q :: insertPair p qs

/-- Sort (key, serialized-value) pairs by key, stably, as `sort_keys=True`
does: insertion sort over code-point string order. -/
def sortPairs : List (String × String) → List (String × String)
  | [] => []
  | p :: ps => insertPair p (sortPairs ps)

mutual
/-- `json.dumps(v, sort_keys=True, separators=(isep, ksep))`. -/
def dumps (isep ksep : String) : Json → String
  | .null => "null"
  | .bool true => "true"
  | .bool false => "false"
  | .int n => toString n
  | .str s => dumpStr s
  | .arr xs => "[" ++ joinSep isep (dumpsList isep ksep xs) ++ "]"
  | .obj fs =>
      "\x7b" ++
        joinSep isep
          ((sortPairs (dumpsFields isep ksep fs)).map
            (fun kv => dumpStr kv.1 ++ ksep ++ kv.2)) ++
      "\x7d"

/-- Serialize each element of a JSON array. -/
def dumpsList (isep ksep : String) : List Json → List String
  | [] => []
  | x :: xs => dumps isep ksep x :: dumpsList isep ksep xs

/-- Serialize the value of each field of a JSON object. -/
def dumpsFields (isep ksep : String) : List (String × Json) → List (String × String)
  | [] => []
  | (k, v) :: fs => (k, dumps isep ksep v) :: dumpsFields isep ksep fs
end

/-- `json.dumps(v, sort_keys=True)` — default separators `", "` / `": "`. -/
def dumpsDefault (v : Json) : String := dumps ", " ": " v

/-- `json.dumps(v, sort_keys=True, separators=(',', ':'))`. -/
def dumpsCompact (v : Json) : String := dumps "," ":" v

/-! ### Dict operations -/

/-- `d[k]` read; raises `KeyError` when absent (first occurrence wins,
matching lookup in a Python dict, which cannot hold duplicate keys). -/
def dictGet (d : Dict) (k : String) : Except PyErr Json :=
  match d.lookup k with
  | some v => .ok v
  | none => .error .keyError

/-- `k in d`. -/
def hasKey (d : Dict) (k : String) : Bool :=
  (d.lookup k).isSome

/-- `d[k] = v` on an association list: replace the value in place when the
key exists, append otherwise — Python dict assignment preserves insertion
order this way. -/
def assocSet {α : Type} (d : List (String × α)) (k : String) (v : α) :
    List (String × α) :=
  match d with
  | [] => [(k, v)]
  | (k', v') :: rest =>
      if k' = k then (k, v) :: rest else (k', v') :: assocSet rest k v

/-- `d[k] = v` on a Python dict of JSON values. -/
def dictSet (d : Dict) (k : String) (v : Json) : Dict :=
  assocSet d k v

/-- `{k: v for k, v in d.items() if k not in excluded}`. -/
def dictExclude (d : Dict) (excluded : List String) : Dict :=
  match d with
  | [] => []
  | (k, v) :: rest =>
      if excluded.contains k then dictExclude rest excluded
      else (k, v) :: dictExclude rest excluded

/-! ## `Mainscript.py`: `PublicRegistrar` (ECDSA chain registrar)

External cryptography (`hashlib.sha256`, the `ecdsa` library) is kept
abstract as a `Crypto` parameter; byte strings are represented by their hex
text. -/

/-- The external cryptographic collaborators of `Mainscript.py`'s
`PublicRegistrar`: SHA-256, and the `ecdsa` signing/verifying keys. -/
structure Crypto where
  /-- `hashlib.sha256(data).hexdigest()`. -/
  sha256_hex : String → String
  /-- `self.private_key.sign(ser, hashfunc=hashlib.sha256)` followed by
  `.hex()`; signing can fail (backend error). -/
  sign : String → Except PyErr String
  /-- `self.public_key.to_string().hex()`. -/
  public_key_hex : String
  /-- `ecdsa.VerifyingKey.from_string(bytes, curve=SECP256k1)`; raises on
  malformed key material.  The key is represented by its byte text. -/
  vkFromString : String → Except PyErr String
  /-- `vk.verify(sig, ser, hashfunc=hashlib.sha256)`: returns normally on a
  valid signature and raises `BadSignatureError` otherwise. -/
  vkVerify : (vk sig ser : String) → Except PyErr Unit

/-- `bytes.fromhex(s)`: raises `ValueError` on odd length or a non-hex
digit.  The resulting bytes are represented by the hex text itself. -/
def bytesFromhex (s : String) : Except PyErr String :=
  if s.length % 2 = 0 && s.toList.all (fun c => c.isDigit ||
      ('a' ≤ c && c ≤ 'f') || ('A' ≤ c && c ≤ 'F')) then
    .ok s
  else
    .error .valueError

/-- Model of the attribute access `·.exclude('signature')` on the `str`
returned by `json.dumps` in `PublicRegistrar._compute_reg_hash`
(`Mainscript.py` line 98).  Python's `str` type has no method `exclude`,
so the lookup raises `AttributeError` before `.encode()` ever runs. -/
def strExclude (_s _field : String) : Except PyErr String :=
  .error .attributeError

/-- `PublicRegistrar._compute_reg_hash(entry)`:
`ser = json.dumps(entry, sort_keys=True).exclude('signature').encode()`
then `sha256(self.prev_reg_hash.encode() + ser).hexdigest()`. -/
def compute_reg_hash (c : Crypto) (prev_reg_hash : String) (entry : Dict) :
    Except PyErr String := do
  let ser ← strExclude (dumpsDefault (Json.obj entry)) "signature"
  .ok (c.sha256_hex (prev_reg_hash ++ ser))

/-- The genesis sentinel installed by `PublicRegistrar.__init__`. -/
def genesis_reg_hash : String :=
  "genesis_public_0000000000000000000000000000000000000000000000000000000000000000"

/-- Mutable state of a `PublicRegistrar` instance plus the ledger file:
`self.prev_reg_hash`, and the contents of `self.reg_file` (`none` when the
file does not exist). -/
structure LedgerState where
  prev_reg_hash : String
  reg_file : Option (List Json)

/-- The state right after `PublicRegistrar.__init__` on a fresh directory. -/
def initLedgerState : LedgerState :=
  { prev_reg_hash := genesis_reg_hash, reg_file := none }

/-- `PublicRegistrar._register_training_proof(training_proof, proof_name)`.
Returns the Python result (entry or exception) together with the state
after the call; `timestamp` stands for `int(time.time())`. -/
def register_training_proof (c : Crypto) (st : LedgerState)
    (training_proof : Json) (proof_name : String) (timestamp : Int) :
    Except PyErr Json × LedgerState :=
  let entry : Dict :=
    [("proof_name", .str proof_name),
     ("training_proof", training_proof),
     ("timestamp", .int timestamp),
     ("prev_reg_hash", .str st.prev_reg_hash)]
  let ser := dumpsDefault (Json.obj entry)
  match c.sign ser with
  | .error e => (.error e, st)
  | .ok sigHex =>
    let entry := dictSet entry "signature" (.str sigHex)
    let entry := dictSet entry "public_key" (.str c.public_key_hex)
    match compute_reg_hash c st.prev_reg_hash entry with
    | .error e => (.error e, st)
    | .ok h =>
      let entry := dictSet entry "reg_hash" (.str h)
      let st' := { st with prev_reg_hash := h }
      let reg := st'.reg_file.getD []
      let st' := { st' with reg_file := some (reg ++ [Json.obj entry]) }
      (.ok (Json.obj entry), st')

/-- The `try:` block of `PublicRegistrar.verify_registration`: signature
check, then the chain-hash assertion (whose right-hand side calls
`_compute_reg_hash`). -/
def verify_registration_try (c : Crypto) (prev_reg_hash : String)
    (reg_entry : Dict) (vk ser : String) : Except PyErr Bool := do
  let sigJson ← dictGet reg_entry "signature"
  let sigHex ← match sigJson with
    | .str s => Except.ok s
    | _ => Except.error .typeError
  let sigBytes ← bytesFromhex sigHex
  let _ ← c.vkVerify vk sigBytes ser
  let regHashJson ← dictGet reg_entry "reg_hash"
  let computed ← compute_reg_hash c prev_reg_hash reg_entry
  match regHashJson with
  | .str h => if h = computed then .ok true else .error .assertionError
  | _ => .error .assertionError

/-- `PublicRegistrar.verify_registration(reg_entry)`.  The serialization
and the `VerifyingKey.from_string` call sit outside the `try:`, so their
exceptions propagate; everything inside the `try:` is swallowed by the
bare `except:` into `return False`. -/
def verify_registration (c : Crypto) (prev_reg_hash : String)
    (reg_entry : Dict) : Except PyErr Bool := do
  let ser := dumpsDefault (Json.obj (dictExclude reg_entry ["signature"]))
  let pkJson ← dictGet reg_entry "public_key"
  let pkHex ← match pkJson with
    | .str s => Except.ok s
    | _ => Except.error .typeError
  let pkBytes ← bytesFromhex pkHex
  let vk ← c.vkFromString pkBytes
  match verify_registration_try c prev_reg_hash reg_entry vk ser with
  | .ok b => .ok b
  | .error _ => .ok false

/-! ## `src/governance_crypto.py`: OpenPGP signing and verification

The `gpg` binary is an external collaborator reached through
`subprocess.run`; it is modelled as a `GpgRun` structure whose fields
return either an OS-level exception (`FileNotFoundError` when the binary
is missing) or the subprocess result (return code, and stdout where the
code reads it). -/

/-- The `subprocess.run` boundary to the `gpg` binary. -/
structure GpgRun where
  /-- `gpg --version`: return code. -/
  version : Except PyErr Int
  /-- `gpg --list-keys <fingerprint>`: return code. -/
  list_keys : String → Except PyErr Int
  /-- `gpg --export --armor <fingerprint>`: (return code, stdout). -/
  export_key : String → Except PyErr (Int × String)
  /-- `gpg --detach-sign --armor --local-user <fp> <data>`: given the
  fingerprint and data text, the return code and the signature file text. -/
  detach_sign : String → String → Except PyErr (Int × String)
  /-- `gpg --import` fed the key text: return code (ignored by callers). -/
  import_key : String → Except PyErr Int
  /-- `gpg --verify --status-fd 1 <sig> <data>` given (data, sig): return
  code (`0` exactly when the signature is valid). -/
  verify : String → String → Except PyErr Int

/-- `OpenPGPSigner.__init__`: `_verify_gpg_available` turns a missing
binary (`FileNotFoundError`) or a nonzero return code into a
`RuntimeError`; `_verify_key_exists` raises `RuntimeError` on a nonzero
return code. -/
def OpenPGPSigner_init (g : GpgRun) (fingerprint : String) :
    Except PyErr Unit := do
  match g.version with
  | .error .fileNotFoundError => Except.error .runtimeError
  | .error e => Except.error e
  | .ok rc => if rc ≠ 0 then Except.error .runtimeError else Except.ok ()
  match g.list_keys fingerprint with
  | .error e => Except.error e
  | .ok rc => if rc ≠ 0 then Except.error .runtimeError else Except.ok ()

/-- `OpenPGPSigner.sign_data(data)`: detached signing via `gpg`; a nonzero
return code raises `RuntimeError`. -/
def sign_data (g : GpgRun) (fingerprint data : String) :
    Except PyErr String := do
  match g.detach_sign fingerprint data with
  | .error e => Except.error e
  | .ok (rc, sig) =>
      if rc ≠ 0 then Except.error .runtimeError else Except.ok sig

/-- `OpenPGPSigner.export_public_key()`: `RuntimeError` on nonzero return
code, the armored key text otherwise. -/
def export_public_key (g : GpgRun) (fingerprint : String) :
    Except PyErr String := do
  match g.export_key fingerprint with
  | .error e => Except.error e
  | .ok (rc, out) =>
      if rc ≠ 0 then Except.error .runtimeError else Except.ok out

/-- The canonical JSON built by `add_openpgp_signature`:
`{k: v for k, v in entry.items() if k not in ['signature',
'openpgp_signature', 'openpgp_public_key']}` serialized with
`sort_keys=True, separators=(',', ':')`. -/
def signing_canonical (entry : Dict) : String :=
  dumpsCompact (Json.obj
    (dictExclude entry ["signature", "openpgp_signature", "openpgp_public_key"]))

/-- The canonical JSON reconstructed by `verify_openpgp_signature`; note
the extra excluded key `openpgp_fingerprint`. -/
def verification_canonical (entry : Dict) : String :=
  dumpsCompact (Json.obj
    (dictExclude entry
      ["signature", "openpgp_signature", "openpgp_public_key", "openpgp_fingerprint"]))

/-- `add_openpgp_signature(entry, fingerprint)`: constructs an
`OpenPGPSigner`, signs the canonical JSON, and adds the
`openpgp_signature`, `openpgp_public_key` and `openpgp_fingerprint`
fields to the entry. -/
def add_openpgp_signature (g : GpgRun) (entry : Dict) (fingerprint : String) :
    Except PyErr Dict := do
  OpenPGPSigner_init g fingerprint
  let canonical_data := signing_canonical entry
  let openpgp_sig ← sign_data g fingerprint canonical_data
  let pk ← export_public_key g fingerprint
  let entry := dictSet entry "openpgp_signature" (.str openpgp_sig)
  let entry := dictSet entry "openpgp_public_key" (.str pk)
  let entry := dictSet entry "openpgp_fingerprint" (.str fingerprint)
  Except.ok entry

/-- Read `entry[k]` expecting a string (it is written to a file with
`write_text`, which needs `str`). -/
def dictGetStr (d : Dict) (k : String) : Except PyErr String := do
  match ← dictGet d k with
  | .str s => Except.ok s
  | _ => Except.error .typeError

/-- `verify_openpgp_signature(entry)`: `False` when the
`openpgp_signature` field is absent; otherwise imports the embedded public
key when present (return code ignored), reconstructs the canonical JSON
with the four-key exclusion set, and runs `gpg --verify` — whose
subprocess-level exceptions (e.g. a missing `gpg` binary) propagate, there
being no `try:` around them. -/
def verify_openpgp_signature (g : GpgRun) (entry : Dict) :
    Except PyErr Bool := do
  if !hasKey entry "openpgp_signature" then
    Except.ok false
  else do
    if hasKey entry "openpgp_public_key" then do
      let pkText ← dictGetStr entry "openpgp_public_key"
      let _ ← g.import_key pkText
      Except.ok ()
    else
      Except.ok ()
    let canonical_data := verification_canonical entry
    let sigText ← dictGetStr entry "openpgp_signature"
    let rc ← g.verify canonical_data sigText
    Except.ok (rc = 0)

/-! ## `src/mainscript.py`: `PublicRegistrar` (identity registrar)

`self._verified_cache` is a plain dict; `_load_registration` is wrapped in
`functools.lru_cache(maxsize=128)`, which memoizes the method's result —
including `None` — keyed by fingerprint, evicting the least recently used
entry past 128.  The registration directory is a map from fingerprint to
the parsed contents of `reg_<fingerprint>.json`.  The counters
`load_misses` (executions of the `_load_registration` body, i.e. actual
file-system reads) and `sig_verify_calls` (calls to
`verify_openpgp_signature`) record the effects the spec talks about. -/

/-- State of one `src/mainscript.py` `PublicRegistrar` instance. -/
structure RegState where
  /-- `self._verified_cache`: fingerprint → verified registration. -/
  verified_cache : List (String × Dict)
  /-- The `lru_cache` over `_load_registration`, most recent first. -/
  load_cache : List (String × Option Dict)
  /-- Number of executions of the `_load_registration` body. -/
  load_misses : Nat
  /-- Number of calls made to `verify_openpgp_signature`. -/
  sig_verify_calls : Nat

/-- A freshly constructed `PublicRegistrar()`. -/
def initRegState : RegState :=
  { verified_cache := [], load_cache := [], load_misses := 0,
    sig_verify_calls := 0 }

/-- Move the hit entry of an LRU cache to the front. -/
def lruTouch (cache : List (String × Option Dict)) (k : String) :
    List (String × Option Dict) :=
  match cache.lookup k with
  | some v => (k, v) :: cache.filter (fun kv => kv.1 ≠ k)
  | none => cache

/-- Insert a fresh entry at the front, evicting past `maxsize=128`. -/
def lruPut (cache : List (String × Option Dict)) (k : String)
    (v : Option Dict) : List (String × Option Dict) :=
  ((k, v) :: cache).take 128

/-- `self._load_registration(fingerprint)` through its `lru_cache`:
on a cache hit the body does not run; on a miss the body checks
`reg_file.exists()` and loads the JSON (`disk` maps fingerprints to the
parsed files present in `self.reg_dir`). -/
def load_registration (disk : List (String × Dict)) (st : RegState)
    (fingerprint : String) : Option Dict × RegState :=
  match st.load_cache.lookup fingerprint with
  | some cached => (cached, { st with load_cache := lruTouch st.load_cache fingerprint })
  | none =>
      let result := disk.lookup fingerprint
      (result,
        { st with
          load_cache := lruPut st.load_cache fingerprint result,
          load_misses := st.load_misses + 1 })

/-- Python `if not registration:` — true for `None` and for an empty dict. -/
def pyFalsy : Option Dict → Bool
  | none => true
  | some d => d.isEmpty

/-- `PublicRegistrar.verify_identity(fingerprint)`: cache check, cached
registration load, OpenPGP signature verification; only a successful
verification is inserted into `self._verified_cache`. -/
def verify_identity (g : GpgRun) (disk : List (String × Dict))
    (st : RegState) (fingerprint : String) :
    Except PyErr (Bool × RegState) :=
  if (st.verified_cache.lookup fingerprint).isSome then
    .ok (true, st)
  else
    let (registration, st1) := load_registration disk st fingerprint
    if pyFalsy registration then
      .ok (false, st1)
    else
      match registration with
      | none => .ok (false, st1)
      | some reg =>
        let st2 := { st1 with sig_verify_calls := st1.sig_verify_calls + 1 }
        match verify_openpgp_signature g reg with
        | .error e => .error e
        | .ok true =>
            .ok (true, { st2 with
              verified_cache := assocSet st2.verified_cache fingerprint reg })
        | .ok false => .ok (false, st2)

/-- `require_verified_identity(fingerprint)` applied to `func`: the
wrapper constructs a fresh `PublicRegistrar()` (empty caches), verifies,
and either raises `PermissionError` or calls the wrapped function. -/
def require_verified_identity {α β : Type} (g : GpgRun)
    (disk : List (String × Dict)) (fingerprint : String)
    (func : α → β) (x : α) : Except PyErr β :=
  match verify_identity g disk initRegState fingerprint with
  | .error e => .error e
  | .ok (true, _) => .ok (func x)
  | .ok (false, _) => .error .permissionError

/-! ## Concrete collaborator instances used for evaluation -/

/-- A concrete ECDSA/SHA-256 backend for evaluating the chain registrar on
specific inputs: the digest is the identity on hex text, signing always
yields `"00"`, and signature verification always succeeds — the strongest
case for the registrar, since even then its own checks decide the result. -/
def cTest : Crypto :=
  { sha256_hex := fun s => s
    sign := fun _ => .ok "00"
    public_key_hex := "00"
    vkFromString := fun b => .ok b
    vkVerify := fun _ _ _ => .ok () }

/-- The `{'dummy': 'data'}` payload from `test_training_registration`. -/
def dummyProof : Json := .obj [("dummy", .str "data")]

/-- A registration entry shaped exactly like the one
`_register_training_proof` is meant to produce for the test payload. -/
def entryFresh : Dict :=
  [("proof_name", .str "test_nurse"),
   ("training_proof", dummyProof),
   ("timestamp", .int 0),
   ("prev_reg_hash", .str genesis_reg_hash),
   ("signature", .str "00"),
   ("public_key", .str "00"),
   ("reg_hash", .str "ab")]

/-- A `gpg` backend that records what it signs: the "signature" is the
signed data itself, and verification succeeds exactly when the data
presented at verification time is byte-identical to the data signed. -/
def gRecord : GpgRun :=
  { version := .ok 0
    list_keys := fun _ => .ok 0
    export_key := fun _ => .ok (0, "PK")
    detach_sign := fun _ data => .ok (0, data)
    import_key := fun _ => .ok 0
    verify := fun data sig => .ok (if data = sig then 0 else 1) }

/-- A `gpg` backend that accepts every signature (return code `0`). -/
def gAccept : GpgRun :=
  { version := .ok 0
    list_keys := fun _ => .ok 0
    export_key := fun _ => .ok (0, "PK")
    detach_sign := fun _ data => .ok (0, data)
    import_key := fun _ => .ok 0
    verify := fun _ _ => .ok 0 }

/-- The environment of `test_verify_signature_gpg_missing`: the `gpg`
binary does not exist, so every `subprocess.run` raises
`FileNotFoundError`. -/
def gMissing : GpgRun :=
  { version := .error .fileNotFoundError
    list_keys := fun _ => .error .fileNotFoundError
    export_key := fun _ => .error .fileNotFoundError
    detach_sign := fun _ _ => .error .fileNotFoundError
    import_key := fun _ => .error .fileNotFoundError
    verify := fun _ _ => .error .fileNotFoundError }

/-- An entry that already carries an `openpgp_fingerprint` field before
being identity-signed (e.g. an entry being re-signed). -/
def entry0 : Dict := [("a", .int 1), ("openpgp_fingerprint", .str "F")]

/-- The result of `add_openpgp_signature(entry0, "F")` under `gRecord`:
the signature field holds the exact canonical bytes that were signed. -/
def signed0 : Dict :=
  [("a", .int 1), ("openpgp_fingerprint", .str "F"),
   ("openpgp_signature", .str (signing_canonical entry0)),
   ("openpgp_public_key", .str "PK")]

/-- A stored registration whose signature `gAccept` accepts. -/
def goodReg : Dict := [("openpgp_signature", .str "SIG")]

/-- Registrar state after one `verify_identity("FP")` call that found no
registration file: the `lru_cache` has memoized the `None` result. -/
def stAfterMiss : RegState :=
  { verified_cache := [], load_cache := [("FP", none)],
    load_misses := 1, sig_verify_calls := 0 }

/-- Registrar state after one successful `verify_identity("FP")` call. -/
def stSucc : RegState :=
  { verified_cache := [("FP", goodReg)], load_cache := [("FP", some goodReg)],
    load_misses := 1, sig_verify_calls := 1 }

/-! ## Helper lemmas -/

/-- `_compute_reg_hash` always raises: `json.dumps(...)` returns a `str`,
and `str` has no method `exclude`. -/
theorem compute_reg_hash_raises (c : Crypto) (prev : String) (entry : Dict) :
    compute_reg_hash c prev entry = .error .attributeError := rfl

/-- The `try:` block of `verify_registration` never succeeds: every path
through it reaches the chain-hash assertion, whose recomputation raises
`AttributeError` (caught by the bare `except:`). -/
theorem verify_registration_try_errors (c : Crypto) (prev : String)
    (e : Dict) (vk ser : String) (b : Bool) :
    verify_registration_try c prev e vk ser ≠ Except.ok b := by
  simp only [verify_registration_try, bind, Except.bind]
  cases h1 : dictGet e "signature" with
  | error err => simp
  | ok sigJson =>
    cases sigJson <;> simp only []
    case str s =>
      cases h2 : bytesFromhex s with
      | error err => simp
      | ok sigBytes =>
        cases h3 : c.vkVerify vk sigBytes ser with
        | error err => simp [h3]
        | ok u =>
          cases h4 : dictGet e "reg_hash" with
          | error err => simp [h3, h4]
          | ok regHashJson => simp [h3, h4, compute_reg_hash_raises]
    all_goals simp

/-- Looking up the key just set by `assocSet` yields the new value. -/
theorem assocSet_lookup {α : Type} (d : List (String × α)) (k : String)
    (v : α) : (assocSet d k v).lookup k = some v := by
  induction d with
  | nil => simp [assocSet, List.lookup]
  | cons kv rest ih =>
    obtain ⟨k', v'⟩ := kv
    by_cases hkk : k' = k
    · subst hkk
      simp [assocSet, List.lookup]
    · simp [assocSet, hkk, List.lookup, beq_false_of_ne (Ne.symm hkk), ih]

/-- `_load_registration` never touches `self._verified_cache`. -/
theorem load_registration_verified_cache (disk : List (String × Dict))
    (st : RegState) (fp : String) :
    (load_registration disk st fp).2.verified_cache = st.verified_cache := by
  unfold load_registration
  cases st.load_cache.lookup fp <;> rfl

/-- Excluding a key set from a dict after assigning one of the excluded
keys is the same as excluding it from the original dict. -/
theorem dictExclude_dictSet_of_mem (d : Dict) (k : String) (v : Json)
    (S : List String) (hk : S.contains k = true) :
    dictExclude (dictSet d k v) S = dictExclude d S := by
  have hk' : k ∈ S := by simpa using hk
  induction d with
  | nil => simp [dictSet, assocSet, dictExclude, hk']
  | cons kv rest ih =>
    obtain ⟨k', v'⟩ := kv
    by_cases hkk : k' = k
    · subst hkk
      simp [dictSet, assocSet, dictExclude, hk']
    · simp only [dictSet, assocSet, if_neg hkk] at ih ⊢
      by_cases hm : k' ∈ S <;> simp [dictExclude, hm, ih]

/-- Excluding one extra key that the dict does not contain changes
nothing. -/
theorem dictExclude_append_absent (d : Dict) (k : String) (S : List String)
    (h : d.lookup k = none) :
    dictExclude d (S ++ [k]) = dictExclude d S := by
  induction d with
  | nil => rfl
  | cons kv rest ih =>
    obtain ⟨k', v'⟩ := kv
    have hkk : ¬ (k = k') := by
      intro he
      simp [List.lookup, he] at h
    have hrest : rest.lookup k = none := by
      simpa [List.lookup, beq_false_of_ne hkk] using h
    by_cases hm : k' ∈ S
    · have h1 : k' ∈ S ++ [k] := List.mem_append_left _ hm
      simp [dictExclude, hm, h1, ih hrest]
    · have h1 : ¬ k' ∈ S ++ [k] := by
        simp only [List.mem_append, List.mem_singleton]
        rintro (hs | he)
        · exact hm hs
        · exact hkk he.symm
      simp [dictExclude, hm, h1, ih hrest]

/-- A `verify_identity` call that returns `True` leaves the fingerprint
present in `self._verified_cache`. -/
theorem verify_identity_true_cached (g : GpgRun)
    (disk : List (String × Dict)) (st : RegState) (fp : String)
    (st₁ : RegState) (h : verify_identity g disk st fp = .ok (true, st₁)) :
    (st₁.verified_cache.lookup fp).isSome = true := by
  unfold verify_identity at h
  by_cases hc : (st.verified_cache.lookup fp).isSome = true
  · rw [if_pos hc] at h
    cases h
    exact hc
  · rw [if_neg hc] at h
    rcases hl : load_registration disk st fp with ⟨reg?, st1⟩
    rw [hl] at h
    simp only [] at h
    by_cases hf : pyFalsy reg? = true
    · rw [if_pos hf] at h
      cases h
    · rw [if_neg hf] at h
      cases reg? with
      | none => cases h
      | some reg =>
        simp only [] at h
        cases hv : verify_openpgp_signature g reg with
        | error err => rw [hv] at h; cases h
        | ok b =>
          cases b with
          | false => rw [hv] at h; cases h
          | true =>
            rw [hv] at h
            cases h
            simp [assocSet_lookup]

/-! ## Claims -/

/-- C1: the claim states that `PublicRegistrar._compute_reg_hash` is total
and returns the SHA-256 digest of the previous chain hash concatenated
with the entry's canonical bytes without the signature field.  The code
instead calls the non-existent method `exclude` on the `str` returned by
`json.dumps`, so the hash computation raises `AttributeError` on every
input and never returns a digest. -/
theorem compute_reg_hash_always_raises (c : Crypto) (prev : String)
    (entry : Dict) :
    compute_reg_hash c prev entry = .error .attributeError := rfl

/-- C2: the claim states that `_register_training_proof` returns a signed,
chained entry, appends it to the ledger file and advances the tip.  On the
test suite's own input (`{'dummy': 'data'}`, name `test_nurse`) the call
instead raises `AttributeError` from `_compute_reg_hash` and leaves the
registrar state (tip pointer and ledger file) untouched. -/
theorem register_training_proof_raises_on_test_input :
    register_training_proof cTest initLedgerState dummyProof "test_nurse" 0 =
      (.error .attributeError, initLedgerState) := rfl

/-- C3: the claim (and the repository's own test
`test_training_registration`) states that a freshly registered entry
self-verifies.  Instead, registration itself raises `AttributeError`, and
`verify_registration` returns `False` even for a fully formed entry whose
signature the backend accepts, because the chain-hash assertion calls the
always-raising `_compute_reg_hash` inside the bare `except:`. -/
theorem registration_self_verification_broken :
    (register_training_proof cTest initLedgerState dummyProof "test_nurse" 0).1 =
      .error .attributeError ∧
    verify_registration cTest genesis_reg_hash entryFresh = .ok false :=
  ⟨rfl, rfl⟩

/-- C4: whenever `verify_registration` returns at all, it returns `False`:
every path through its `try:` block reaches the chain-hash assertion,
whose `_compute_reg_hash` call raises `AttributeError`, which the bare
`except:` converts to `False`.  No input makes it return `True`. -/
theorem verify_registration_never_true (c : Crypto) (prev : String)
    (e : Dict) (b : Bool) (h : verify_registration c prev e = .ok b) :
    b = false := by
  simp only [verify_registration, bind, Except.bind] at h
  cases h1 : dictGet e "public_key" with
  | error err => simp [h1] at h
  | ok pkJson =>
    simp only [h1] at h
    cases pkJson <;> simp only [] at h <;> try (exact absurd h (by simp))
    case str s =>
      cases h2 : bytesFromhex s with
      | error err => simp [h2] at h
      | ok pkBytes =>
        simp only [h2] at h
        cases h3 : c.vkFromString pkBytes with
        | error err => simp [h3] at h
        | ok vk =>
          simp only [h3] at h
          cases h4 : verify_registration_try c prev e vk
              (dumpsDefault (Json.obj (dictExclude e ["signature"]))) with
          | error err =>
            simp only [h4] at h
            injection h with hb
            exact hb.symm
          | ok b' =>
            exact absurd h4 (verify_registration_try_errors c prev e vk _ b')

/-- C4 witness: on a concrete well-formed entry the function returns, and
the theorem forces the returned boolean to be `False`. -/
theorem verify_registration_never_true_witness :
    verify_registration cTest genesis_reg_hash entryFresh = .ok false ∧
    false = false :=
  ⟨rfl, verify_registration_never_true cTest genesis_reg_hash entryFresh false rfl⟩

/-- C5 counterexample: an entry that already contains an
`openpgp_fingerprint` field is signed over canonical bytes that include
that field, while verification excludes it — the reconstructed bytes
differ, and the freshly signed entry fails to verify even against a
backend that accepts exactly the bytes it signed. -/
theorem openpgp_exclusion_sets_differ_cx :
    add_openpgp_signature gRecord entry0 "F" = .ok signed0 ∧
    verification_canonical signed0 ≠ signing_canonical entry0 ∧
    verify_openpgp_signature gRecord signed0 = .ok false :=
  ⟨rfl, by decide, rfl⟩

/-- C5 amended: for every entry that does **not** already contain an
`openpgp_fingerprint` field, the canonical bytes reconstructed by
`verify_openpgp_signature` from the signed entry are byte-identical to the
canonical bytes `add_openpgp_signature` signed. -/
theorem openpgp_canonical_agree_without_fingerprint (g : GpgRun) (e : Dict)
    (fp : String) (e' : Dict)
    (hfp : hasKey e "openpgp_fingerprint" = false)
    (hadd : add_openpgp_signature g e fp = .ok e') :
    verification_canonical e' = signing_canonical e := by
  simp only [add_openpgp_signature, bind, Except.bind] at hadd
  cases hi : OpenPGPSigner_init g fp with
  | error err => rw [hi] at hadd; cases hadd
  | ok u =>
    rw [hi] at hadd
    cases hs : sign_data g fp (signing_canonical e) with
    | error err => rw [hs] at hadd; cases hadd
    | ok sig =>
      rw [hs] at hadd
      cases hx : export_public_key g fp with
      | error err => rw [hx] at hadd; cases hadd
      | ok pk =>
        rw [hx] at hadd
        cases hadd
        have hnone : e.lookup "openpgp_fingerprint" = none := by
          have := hfp
          unfold hasKey at this
          cases hl : e.lookup "openpgp_fingerprint" with
          | none => rfl
          | some v => rw [hl] at this; cases this
        unfold verification_canonical signing_canonical
        rw [show (["signature", "openpgp_signature", "openpgp_public_key",
              "openpgp_fingerprint"] : List String) =
            ["signature", "openpgp_signature", "openpgp_public_key"] ++
              ["openpgp_fingerprint"] from rfl]
        rw [dictExclude_dictSet_of_mem _ _ _ _ (by rfl),
            dictExclude_dictSet_of_mem _ _ _ _ (by rfl),
            dictExclude_dictSet_of_mem _ _ _ _ (by rfl),
            dictExclude_append_absent _ _ _ hnone]

/-- C5 amended witness: a concrete fingerprint-free entry signed under the
recording backend reconstructs identical canonical bytes. -/
theorem openpgp_canonical_agree_witness :
    hasKey [(("a" : String), Json.int 1)] "openpgp_fingerprint" = false ∧
    verification_canonical
      [(("a" : String), Json.int 1),
       ("openpgp_signature", .str (signing_canonical [(("a" : String), Json.int 1)])),
       ("openpgp_public_key", .str "PK"),
       ("openpgp_fingerprint", .str "F")] =
      signing_canonical [(("a" : String), Json.int 1)] :=
  ⟨rfl, openpgp_canonical_agree_without_fingerprint gRecord
    [(("a" : String), Json.int 1)] "F" _ rfl rfl⟩

/-- C6 counterexample: with the `gpg` binary missing, verification of an
entry that carries a signature field does not return a boolean failure —
the `FileNotFoundError` from `subprocess.run` propagates to the caller,
exactly as the repository's own `test_verify_signature_gpg_missing`
expects. -/
theorem verify_openpgp_propagates_backend_error_cx :
    verify_openpgp_signature gMissing goodReg = .error .fileNotFoundError := rfl

/-- C6 amended: verification returns a definite `False` when the
`openpgp_signature` field is missing (no backend call happens), but an
unavailable `gpg` backend makes both `verify_openpgp_signature` and
`verify_identity` propagate `FileNotFoundError` instead of returning a
failure result. -/
theorem verify_openpgp_error_behavior :
    (∀ (g : GpgRun) (e : Dict), hasKey e "openpgp_signature" = false →
        verify_openpgp_signature g e = .ok false) ∧
    (∀ s : String,
        verify_openpgp_signature gMissing [("openpgp_signature", Json.str s)] =
          .error .fileNotFoundError) ∧
    (∀ s : String,
        verify_identity gMissing [("FP", [("openpgp_signature", Json.str s)])]
          initRegState "FP" = .error .fileNotFoundError) := by
  refine ⟨fun g e hf => ?_, fun s => rfl, fun s => rfl⟩
  simp only [verify_openpgp_signature, hf, Bool.not_false, bind, Except.bind]
  rfl

/-- C6 amended witness: the three parts evaluated at concrete inputs. -/
theorem verify_openpgp_error_behavior_witness :
    verify_openpgp_signature gAccept [] = .ok false ∧
    verify_openpgp_signature gMissing goodReg = .error .fileNotFoundError ∧
    verify_identity gMissing [("FP", goodReg)] initRegState "FP" =
      .error .fileNotFoundError :=
  ⟨verify_openpgp_error_behavior.1 gAccept [] rfl,
   verify_openpgp_error_behavior.2.1 "SIG",
   verify_openpgp_error_behavior.2.2 "SIG"⟩

/-- C7 counterexample: after a `verify_identity("FP")` call that failed
because no registration file existed, the `lru_cache` on
`_load_registration` has memoized the `None` result
(`stAfterMiss.load_cache = [("FP", none)]`); a later call on the same
registrar still returns `False` without re-attempting the load even
though a valid registration for `"FP"` is now on disk — while a fresh
registrar verifies it. -/
theorem negative_load_cache_cx :
    verify_identity gAccept [] initRegState "FP" = .ok (false, stAfterMiss) ∧
    stAfterMiss.load_cache = [("FP", none)] ∧
    verify_identity gAccept [("FP", goodReg)] stAfterMiss "FP" =
      .ok (false, stAfterMiss) ∧
    verify_identity gAccept [("FP", goodReg)] initRegState "FP" =
      .ok (true, stSucc) :=
  ⟨rfl, rfl, rfl, rfl⟩

/-- C7 amended: a failed `verify_identity` call never inserts anything
into `self._verified_cache` — that cache holds successes only (the
registration-load memoization is a separate `lru_cache` that does retain
negative results, per the counterexample). -/
theorem failed_verification_not_cached (g : GpgRun)
    (disk : List (String × Dict)) (st : RegState) (fp : String)
    (st' : RegState) (h : verify_identity g disk st fp = .ok (false, st')) :
    st'.verified_cache = st.verified_cache := by
  unfold verify_identity at h
  by_cases hc : (st.verified_cache.lookup fp).isSome = true
  · rw [if_pos hc] at h
    cases h
  · rw [if_neg hc] at h
    rcases hl : load_registration disk st fp with ⟨reg?, st1⟩
    rw [hl] at h
    simp only [] at h
    have hvc : st1.verified_cache = st.verified_cache := by
      have := load_registration_verified_cache disk st fp
      rw [hl] at this
      exact this
    by_cases hf : pyFalsy reg? = true
    · rw [if_pos hf] at h
      cases h
      exact hvc
    · rw [if_neg hf] at h
      cases reg? with
      | none => cases h; exact hvc
      | some reg =>
        simp only [] at h
        cases hv : verify_openpgp_signature g reg with
        | error err => rw [hv] at h; cases h
        | ok b =>
          cases b with
          | true => rw [hv] at h; cases h
          | false => rw [hv] at h; cases h; exact hvc

/-- C7 amended witness: a concrete failing call adds nothing to the
verified cache. -/
theorem failed_verification_not_cached_witness :
    verify_identity gAccept [] initRegState "FP" = .ok (false, stAfterMiss) ∧
    stAfterMiss.verified_cache = initRegState.verified_cache :=
  ⟨rfl, failed_verification_not_cached gAccept [] initRegState "FP"
    stAfterMiss rfl⟩

/-- C8: cache idempotence — when `verify_identity` returns `True` with
state `st₁`, calling it again on `st₁` returns `True` with the state
completely unchanged: in particular `load_misses` and `sig_verify_calls`
stay put, so the second call performs no registration load and no backend
signature verification (a pure `_verified_cache` hit). -/
theorem verify_identity_cache_idempotent (g : GpgRun)
    (disk : List (String × Dict)) (st : RegState) (fp : String)
    (st₁ : RegState) (h : verify_identity g disk st fp = .ok (true, st₁)) :
    verify_identity g disk st₁ fp = .ok (true, st₁) := by
  have hc := verify_identity_true_cached g disk st fp st₁ h
  unfold verify_identity
  rw [if_pos hc]

/-- C8 witness: a concrete successful verification followed by a pure
cache hit. -/
theorem verify_identity_cache_idempotent_witness :
    verify_identity gAccept [("FP", goodReg)] initRegState "FP" =
      .ok (true, stSucc) ∧
    verify_identity gAccept [("FP", goodReg)] stSucc "FP" =
      .ok (true, stSucc) :=
  ⟨rfl, verify_identity_cache_idempotent gAccept [("FP", goodReg)]
    initRegState "FP" stSucc rfl⟩

/-- C9: when the fresh registrar built inside the
`require_verified_identity` wrapper reports that the fingerprint does not
verify, the wrapped call raises `PermissionError` and the wrapped
function is never invoked — the result is the same for every wrapped
function and argument. -/
theorem require_verified_identity_denies {α β : Type} (g : GpgRun)
    (disk : List (String × Dict)) (fp : String) (func : α → β) (x : α)
    (st' : RegState)
    (h : verify_identity g disk initRegState fp = .ok (false, st')) :
    require_verified_identity g disk fp func x = .error .permissionError := by
  unfold require_verified_identity
  rw [h]

/-- C9 witness: an unregistered fingerprint is denied on a concrete
wrapped operation. -/
theorem require_verified_identity_denies_witness :
    verify_identity gAccept [] initRegState "FP" = .ok (false, stAfterMiss) ∧
    require_verified_identity gAccept [] "FP" Nat.succ 0 =
      .error .permissionError :=
  ⟨rfl, require_verified_identity_denies gAccept [] "FP" Nat.succ 0
    stAfterMiss rfl⟩

/-- C10: append is atomic on failure — when `_register_training_proof`
raises (all of its fallible steps: serialization, ECDSA signing, and the
chain-hash computation, happen before the tip update and the file write),
the registrar state is unchanged: `self.prev_reg_hash` keeps its old
value and nothing is written to the ledger file. -/
theorem register_failure_atomic (c : Crypto) (st : LedgerState)
    (p : Json) (n : String) (t : Int) (e : PyErr)
    (_h : (register_training_proof c st p n t).1 = .error e) :
    (register_training_proof c st p n t).2 = st := by
  simp only [register_training_proof]
  cases hs : c.sign (dumpsDefault (Json.obj
      [("proof_name", .str n), ("training_proof", p),
       ("timestamp", .int t), ("prev_reg_hash", .str st.prev_reg_hash)])) with
  | error err => rfl
  | ok sigHex => simp [compute_reg_hash_raises]

/-- C10 witness: a concrete failing append leaves the state untouched. -/
theorem register_failure_atomic_witness :
    (register_training_proof cTest initLedgerState dummyProof "the_nurse" 1).1 =
      .error .attributeError ∧
    (register_training_proof cTest initLedgerState dummyProof "the_nurse" 1).2 =
      initLedgerState :=
  ⟨rfl, register_failure_atomic cTest initLedgerState dummyProof "the_nurse" 1
    .attributeError rfl⟩

end Gov
